import Mathlib

/-!
Verification development for the certificate-issuance subsystem:
the certificate orchestrator canister (`certificate_orchestrator/src/lib.rs`)
and the worker pipeline (`certificate_issuer/src/work.rs`).

Worker-side definitions are shallow embeddings of `work.rs`; asynchronous
collaborator calls (ACME client, DNS provider, DNS resolver, certificate
uploader) are modelled as result oracles, and the sequence of calls the
worker makes is recorded as an explicit event trace.
-/

namespace Issuer

/-- Registration lifecycle state, as matched on in `work.rs`
(`State::Failed(_) | State::PendingOrder | ...`). -/
inductive State where
  | pendingOrder : State
  | pendingChallengeResponse : State
  | pendingAcmeApproval : State
  | available : State
  | failed : String → State
deriving DecidableEq, Repr

/-- The worker action enum from `work.rs`. -/
inductive Action where
  | order : Action
  | ready : Action
  | certificate : Action
deriving DecidableEq, Repr

/-- Embedding of `impl From<State> for Action` in `work.rs`. -/
def Action.fromState : State → Action
  | State.failed _ => Action.order
  | State.pendingOrder => Action.order
  | State.pendingChallengeResponse => Action.ready
  | State.pendingAcmeApproval => Action.certificate
  | State.available => Action.order

/-- A dispensed task, as in `work.rs`: a registration name plus the action
derived from its state. -/
structure Task where
  name : String
  action : Action
deriving DecidableEq, Repr

/-- The worker id type (`registration::Id` is a `String`). -/
def Id := String
deriving DecidableEq, Repr

/-- The `ProcessError` enum from `work.rs`; `UnexpectedError` carries the
`anyhow` message. The source spells it `AwaitingDnsPropogation`. -/
inductive ProcessError where
  | awaitingDnsPropogation : ProcessError
  | awaitingAcmeOrderReady : ProcessError
  | unexpectedError : String → ProcessError
deriving DecidableEq, Repr

/-- Embedding of `impl From<&ProcessError> for Duration` in `work.rs`:
a constant 60 seconds for every variant. The `Duration` is given in
seconds. -/
def durationFromProcessError : ProcessError → Nat :=
  fun _ => 60

/-- DNS record payload (`dns::Record`); only the TXT variant is used by
the worker. -/
inductive DnsRecord where
  | txt : String → DnsRecord
deriving DecidableEq, Repr

/-- DNS record type as passed to the resolver (`trust_dns` `RecordType`);
the worker only queries TXT, the other constructors keep the type honest. -/
inductive RecordType where
  | txt : RecordType
  | a : RecordType
  | cname : RecordType
deriving DecidableEq, Repr

/-- The kind of a resolver error (`trust_dns` `ResolveErrorKind`), split the
way `work.rs` matches on it: `NoRecordsFound { .. }` versus anything else. -/
inductive ResolveErrorKind where
  | noRecordsFound : ResolveErrorKind
  | other : String → ResolveErrorKind
deriving DecidableEq, Repr

/-- A successful resolver lookup, abstracted to the record strings it
returned; `work.rs` discards this value. -/
def Lookup := List String
deriving DecidableEq, Repr

/-- One call made by the worker to an external collaborator, with the
arguments `work.rs` passes. -/
inductive Event where
  | acmeOrder : String → Event
  | dnsCreate : String → String → DnsRecord → Event
  | resolverLookup : String → RecordType → Event
  | acmeReady : String → Event
  | acmeFinalize : String → Event
  | dnsDelete : String → String → Event
  | certUpload : Id → String × String → Event
deriving DecidableEq, Repr

/-- Result oracles for the worker's collaborators. Each field gives, for the
arguments of one call, the outcome that call would return; errors are the
underlying error messages before `anyhow::Context` wraps them.
`acmeFinalize` returns `(certificate_chain_pem, private_key_pem)` in that
order, exactly as `work.rs` destructures it. -/
structure Collaborators where
  acmeOrder : String → Except String String
  dnsCreate : String → String → DnsRecord → Except String Unit
  resolverLookup : String → RecordType → Except ResolveErrorKind Lookup
  acmeReady : String → Except String Unit
  acmeFinalize : String → Except String (String × String)
  dnsDelete : String → String → Except String Unit
  certUpload : Id → String × String → Except String Unit

/-- The worker `Processor` configuration from `work.rs` (the collaborator
boxes are passed separately as `Collaborators`). -/
structure Processor where
  delegation_domain : String

/-- Embedding of `Processor::process` from `work.rs`. It returns the
`Result<(), ProcessError>` of the Rust function together with the trace of
collaborator calls made, in order. A collaborator error `e` surfaced through
`.context(msg)?` becomes `unexpectedError (msg ++ ": " ++ e)`; the uploaded
pair puts the private key first and the certificate chain second, mirroring
`Pair(private_key_pem.into_bytes(), certificate_chain_pem.into_bytes())`. -/
def Processor.process (p : Processor) (c : Collaborators) (id : Id)
    (task : Task) : Except ProcessError Unit × List Event :=
  match task.action with
  | Action.order =>
    match c.acmeOrder task.name with
    | Except.error e =>
        (Except.error (ProcessError.unexpectedError
          ("failed to create acme order: " ++ e)),
         [Event.acmeOrder task.name])
    | Except.ok challengeKey =>
      match c.dnsCreate p.delegation_domain
          ("_acme-challenge." ++ task.name) (DnsRecord.txt challengeKey) with
      | Except.error e =>
          (Except.error (ProcessError.unexpectedError
            ("failed to create dns record: " ++ e)),
           [Event.acmeOrder task.name,
            Event.dnsCreate p.delegation_domain
              ("_acme-challenge." ++ task.name) (DnsRecord.txt challengeKey)])
      | Except.ok _ =>
          (Except.error ProcessError.awaitingDnsPropogation,
           [Event.acmeOrder task.name,
            Event.dnsCreate p.delegation_domain
              ("_acme-challenge." ++ task.name) (DnsRecord.txt challengeKey)])
  | Action.ready =>
    match c.resolverLookup
        ("_acme-challenge." ++ task.name ++ "." ++ p.delegation_domain)
        RecordType.txt with
    | Except.error ResolveErrorKind.noRecordsFound =>
        (Except.error ProcessError.awaitingDnsPropogation,
         [Event.resolverLookup
            ("_acme-challenge." ++ task.name ++ "." ++ p.delegation_domain)
            RecordType.txt])
    | Except.error (ResolveErrorKind.other e) =>
        (Except.error (ProcessError.unexpectedError
          ("failed to resolve TXT record: " ++ e)),
         [Event.resolverLookup
            ("_acme-challenge." ++ task.name ++ "." ++ p.delegation_domain)
            RecordType.txt])
    | Except.ok _ =>
      match c.acmeReady task.name with
      | Except.error e =>
          (Except.error (ProcessError.unexpectedError
            ("failed to mark acme order as ready: " ++ e)),
           [Event.resolverLookup
              ("_acme-challenge." ++ task.name ++ "." ++ p.delegation_domain)
              RecordType.txt,
            Event.acmeReady task.name])
      | Except.ok _ =>
          (Except.error ProcessError.awaitingAcmeOrderReady,
           [Event.resolverLookup
              ("_acme-challenge." ++ task.name ++ "." ++ p.delegation_domain)
              RecordType.txt,
            Event.acmeReady task.name])
  | Action.certificate =>
    match c.acmeFinalize task.name with
    | Except.error e =>
        (Except.error (ProcessError.unexpectedError
          ("failed to finalize acme order: " ++ e)),
         [Event.acmeFinalize task.name])
    | Except.ok (certificateChainPem, privateKeyPem) =>
      match c.dnsDelete p.delegation_domain
          ("_acme-challenge." ++ task.name) with
      | Except.error e =>
          (Except.error (ProcessError.unexpectedError
            ("failed to delete dns record: " ++ e)),
           [Event.acmeFinalize task.name,
            Event.dnsDelete p.delegation_domain
              ("_acme-challenge." ++ task.name)])
      | Except.ok _ =>
        match c.certUpload id (privateKeyPem, certificateChainPem) with
        | Except.error e =>
            (Except.error (ProcessError.unexpectedError
              ("failed to upload certificates: " ++ e)),
             [Event.acmeFinalize task.name,
              Event.dnsDelete p.delegation_domain
                ("_acme-challenge." ++ task.name),
              Event.certUpload id (privateKeyPem, certificateChainPem)])
        | Except.ok _ =>
            (Except.ok (),
             [Event.acmeFinalize task.name,
              Event.dnsDelete p.delegation_domain
                ("_acme-challenge." ++ task.name),
              Event.certUpload id (privateKeyPem, certificateChainPem)])

/-- The orchestrator interface error for `queueTask`
(`certificate_orchestrator_interface::QueueTaskError`). -/
inductive IfcQueueTaskError where
  | notFound : IfcQueueTaskError
  | unauthorized : IfcQueueTaskError
  | unexpectedError : String → IfcQueueTaskError
deriving DecidableEq, Repr

/-- The orchestrator interface response for `queueTask`. -/
inductive IfcQueueTaskResponse where
  | ok : IfcQueueTaskResponse
  | err : IfcQueueTaskError → IfcQueueTaskResponse
deriving DecidableEq, Repr

/-- The orchestrator interface error for `dispenseTask` / `peekTask`
(`certificate_orchestrator_interface::DispenseTaskError`). -/
inductive IfcDispenseTaskError where
  | noTasksAvailable : IfcDispenseTaskError
  | unauthorized : IfcDispenseTaskError
  | unexpectedError : String → IfcDispenseTaskError
deriving DecidableEq, Repr

/-- The orchestrator interface response for `dispenseTask` / `peekTask`. -/
inductive IfcDispenseTaskResponse where
  | ok : Id → IfcDispenseTaskResponse
  | err : IfcDispenseTaskError → IfcDispenseTaskResponse
deriving DecidableEq, Repr

/-- The worker-side `QueueError` from `work.rs`; note it has no
`Unauthorized` variant. -/
inductive QueueError where
  | notFound : QueueError
  | unexpectedError : String → QueueError
deriving DecidableEq, Repr

/-- The worker-side `DispenseError` from `work.rs`; note it has no
`Unauthorized` variant. -/
inductive DispenseError where
  | noTasksAvailable : DispenseError
  | unexpectedError : String → DispenseError
deriving DecidableEq, Repr

/-- The response-translation match of `CanisterQueuer::queue` in `work.rs`:
how a decoded `QueueTaskResponse` becomes the wrapper's result. -/
def CanisterQueuer.queueResult :
    IfcQueueTaskResponse → Except QueueError Unit
  | IfcQueueTaskResponse.ok => Except.ok ()
  | IfcQueueTaskResponse.err e =>
    Except.error (match e with
      | IfcQueueTaskError.notFound => QueueError.notFound
      | IfcQueueTaskError.unauthorized =>
          QueueError.unexpectedError "unauthorized"
      | IfcQueueTaskError.unexpectedError msg =>
          QueueError.unexpectedError msg)

/-- The response-translation match inside `CanisterDispenser::dispense` in
`work.rs` for the `dispenseTask` call. -/
def CanisterDispenser.dispenseResult :
    IfcDispenseTaskResponse → Except DispenseError Id
  | IfcDispenseTaskResponse.ok id => Except.ok id
  | IfcDispenseTaskResponse.err e =>
    Except.error (match e with
      | IfcDispenseTaskError.noTasksAvailable => DispenseError.noTasksAvailable
      | IfcDispenseTaskError.unauthorized =>
          DispenseError.unexpectedError "unauthorized"
      | IfcDispenseTaskError.unexpectedError msg =>
          DispenseError.unexpectedError msg)

/-- The response-translation match of `CanisterDispenser::peek` in
`work.rs` for the `peekTask` call. -/
def CanisterDispenser.peekResult :
    IfcDispenseTaskResponse → Except DispenseError Id
  | IfcDispenseTaskResponse.ok id => Except.ok id
  | IfcDispenseTaskResponse.err e =>
    Except.error (match e with
      | IfcDispenseTaskError.noTasksAvailable => DispenseError.noTasksAvailable
      | IfcDispenseTaskError.unauthorized =>
          DispenseError.unexpectedError "unauthorized"
      | IfcDispenseTaskError.unexpectedError msg =>
          DispenseError.unexpectedError msg)

end Issuer

namespace Orch

/-!
Orchestrator-side model (`certificate_orchestrator/src/lib.rs`). Principals
are modelled by their textual form (the canister stores `p.to_text()`), the
stable principal sets by lists of distinct strings, and the in-memory
priority queues (`PriorityQueue<Id, Reverse<u64>>`) by association lists of
`(id, due-time)` with timestamps in nanoseconds, as returned by `time()`.
The `acl`, `work` and `persistence` submodules are declared in `lib.rs` but
their sources are not part of this tree; the definitions below that embed
them are modelled from the spec and say so in their doc comments.
-/

/-- A priority queue of registration ids keyed by a `u64` due-time in
nanoseconds, modelled by its list of `(id, due-time)` entries. -/
abbrev PQueue := List (String × Nat)

/-- The `IN_PROGRESS_TTL` constant of `lib.rs`: 10 minutes, in seconds. -/
def IN_PROGRESS_TTL : Nat := 10 * 60

/-- The in-progress lease duration in nanoseconds, the unit of `time()`. -/
def IN_PROGRESS_TTL_NANOS : Nat := IN_PROGRESS_TTL * 1000000000

/-- Boolean comparison placing entry `a` before entry `b` when `a` has the
smaller due-time, ties broken by lexicographically smaller id (the
deterministic tie-break declared for the queues). -/
def entryLE (a b : String × Nat) : Bool :=
  decide (a.2 < b.2) ||
    (decide (a.2 = b.2) && (decide (a.1 < b.1) || decide (a.1 = b.1)))

/-- The smaller of two queue entries under `entryLE`. -/
def minEntry (a b : String × Nat) : String × Nat :=
  if entryLE a b then a else b

/-- Modelled from the spec: the `peek` of the min-heap `PriorityQueue`
(module `work` is not under the source tree) — the entry with the smallest
due-time, ties broken by key lexicographic order. -/
def peekMin : PQueue → Option (String × Nat)
  | [] => none
  | e :: es => some (es.foldl minEntry e)

/-- Modelled from the spec: removal of a key from a priority queue
(`remove_by_key`); drops every entry carrying the given id. -/
def removeKey (id : String) (q : PQueue) : PQueue :=
  q.filter (fun e => e.1 ≠ id)

/-- Modelled from the spec: keyed `push_or_update` — any existing entry for
the id is replaced by one at the given priority. -/
def pushOrUpdate (id : String) (prio : Nat) (q : PQueue) : PQueue :=
  removeKey id q ++ [(id, prio)]

/-- The `AuthorizeError` enum of the `acl` module as matched on by
`lib.rs`. -/
inductive AuthorizeError where
  | unauthorized : AuthorizeError
  | unexpectedError : String → AuthorizeError
deriving DecidableEq, Repr

/-- Modelled from the spec: `acl::Authorizer::authorize` (module `acl` is
not under the source tree) returns `Ok` iff the caller is in the backing
principal set, and `Unauthorized` otherwise. -/
def authorize (caller : String) (set : List String) :
    Except AuthorizeError Unit :=
  if caller ∈ set then Except.ok () else Except.error AuthorizeError.unauthorized

/-- The orchestrator state the claims touch: the two principal sets
(`ROOT_PRINCIPALS`, `ALLOWED_PRINCIPALS`) and the three in-memory queues
(`TASKS`, `EXPIRATIONS`, `RETRIES`). -/
structure OrchestratorState where
  rootPrincipals : List String
  allowedPrincipals : List String
  tasks : PQueue
  expirations : PQueue
  retries : PQueue
deriving DecidableEq, Repr

/-- The internal `work::DispenseError`, pre-translation, as matched on by
the `dispense_task` handler in `lib.rs`. -/
inductive DispenseError where
  | noTasksAvailable : DispenseError
  | unauthorized : DispenseError
  | unexpectedError : String → DispenseError
deriving DecidableEq, Repr

/-- Modelled from the spec: `work::Dispenser::dispense` (module `work` is
not under the source tree) — atomically pops the head task whose due-time
is at most `now` and enqueues that id into Retries at
`now + IN_PROGRESS_TTL`; with no such task it fails with
`NoTasksAvailable`. Returns the dispensed id and the two updated queues. -/
def Dispenser.dispense (now : Nat) (tasks retries : PQueue) :
    Except DispenseError (String × PQueue × PQueue) :=
  match peekMin tasks with
  | none => Except.error DispenseError.noTasksAvailable
  | some (id, t) =>
    if t ≤ now then
      Except.ok (id, removeKey id tasks,
                 pushOrUpdate id (now + IN_PROGRESS_TTL_NANOS) retries)
    else
      Except.error DispenseError.noTasksAvailable

/-- Modelled from the spec: the `WithAuthorize` decorator wrapping the
dispenser against `ALLOWED_PRINCIPALS` (`lib.rs` builds
`WithAuthorize(Dispenser, &MAIN_AUTHORIZER)`): authorize first, then run
the inner dispenser. -/
def WithAuthorize.dispense (caller : String) (now : Nat)
    (s : OrchestratorState) :
    Except DispenseError (String × PQueue × PQueue) :=
  match authorize caller s.allowedPrincipals with
  | Except.error AuthorizeError.unauthorized =>
      Except.error DispenseError.unauthorized
  | Except.error (AuthorizeError.unexpectedError e) =>
      Except.error (DispenseError.unexpectedError e)
  | Except.ok _ => Dispenser.dispense now s.tasks s.retries

/-- Embedding of the `dispenseTask` update handler of `lib.rs`: runs the
decorated dispenser and translates the result into the interface response,
returning the (possibly updated) canister state alongside. -/
def dispense_task (caller : String) (now : Nat) (s : OrchestratorState) :
    Issuer.IfcDispenseTaskResponse × OrchestratorState :=
  match WithAuthorize.dispense caller now s with
  | Except.ok (id, tasks2, retries2) =>
      (Issuer.IfcDispenseTaskResponse.ok id,
       { s with tasks := tasks2, retries := retries2 })
  | Except.error DispenseError.noTasksAvailable =>
      (Issuer.IfcDispenseTaskResponse.err
        Issuer.IfcDispenseTaskError.noTasksAvailable, s)
  | Except.error DispenseError.unauthorized =>
      (Issuer.IfcDispenseTaskResponse.err
        Issuer.IfcDispenseTaskError.unauthorized, s)
  | Except.error (DispenseError.unexpectedError e) =>
      (Issuer.IfcDispenseTaskResponse.err
        (Issuer.IfcDispenseTaskError.unexpectedError e), s)

/-- The `ListAllowedPrincipalsError` of the interface crate as produced by
`lib.rs`. -/
inductive ListAllowedPrincipalsError where
  | unauthorized : ListAllowedPrincipalsError
  | unexpectedError : String → ListAllowedPrincipalsError
deriving DecidableEq, Repr

/-- The `ListAllowedPrincipalsResponse` of the interface crate. -/
inductive ListAllowedPrincipalsResponse where
  | ok : List String → ListAllowedPrincipalsResponse
  | err : ListAllowedPrincipalsError → ListAllowedPrincipalsResponse
deriving DecidableEq, Repr

/-- The `ModifyAllowedPrincipalError` of the interface crate as produced by
`lib.rs`. -/
inductive ModifyAllowedPrincipalError where
  | unauthorized : ModifyAllowedPrincipalError
  | unexpectedError : String → ModifyAllowedPrincipalError
deriving DecidableEq, Repr

/-- The `ModifyAllowedPrincipalResponse` of the interface crate. -/
inductive ModifyAllowedPrincipalResponse where
  | ok : ModifyAllowedPrincipalResponse
  | err : ModifyAllowedPrincipalError → ModifyAllowedPrincipalResponse
deriving DecidableEq, Repr

/-- Insertion into a stable principal set (`StableBTreeMap::insert` with a
unit value): a no-op when the key is already present, otherwise the key is
added. -/
def insertPrincipal (p : String) (set : List String) : List String :=
  if p ∈ set then set else set ++ [p]

/-- Removal from a stable principal set (`StableBTreeMap::remove`): every
occurrence of the key is dropped. -/
def removePrincipal (p : String) (set : List String) : List String :=
  set.filter (fun q => q ≠ p)

/-- Embedding of the `listAllowedPrincipals` query handler of `lib.rs`:
authorize against `ROOT_PRINCIPALS`, then return the contents of
`ALLOWED_PRINCIPALS`. A query, so no state is returned. -/
def list_allowed_principals (caller : String) (s : OrchestratorState) :
    ListAllowedPrincipalsResponse :=
  match authorize caller s.rootPrincipals with
  | Except.error AuthorizeError.unauthorized =>
      ListAllowedPrincipalsResponse.err ListAllowedPrincipalsError.unauthorized
  | Except.error (AuthorizeError.unexpectedError e) =>
      ListAllowedPrincipalsResponse.err
        (ListAllowedPrincipalsError.unexpectedError e)
  | Except.ok _ => ListAllowedPrincipalsResponse.ok s.allowedPrincipals

/-- Embedding of the `addAllowedPrincipal` update handler of `lib.rs`:
authorize against `ROOT_PRINCIPALS`, then insert the principal into
`ALLOWED_PRINCIPALS`. -/
def add_allowed_principal (caller principal : String)
    (s : OrchestratorState) :
    ModifyAllowedPrincipalResponse × OrchestratorState :=
  match authorize caller s.rootPrincipals with
  | Except.error AuthorizeError.unauthorized =>
      (ModifyAllowedPrincipalResponse.err
        ModifyAllowedPrincipalError.unauthorized, s)
  | Except.error (AuthorizeError.unexpectedError e) =>
      (ModifyAllowedPrincipalResponse.err
        (ModifyAllowedPrincipalError.unexpectedError e), s)
  | Except.ok _ =>
      (ModifyAllowedPrincipalResponse.ok,
       { s with allowedPrincipals := insertPrincipal principal s.allowedPrincipals })

/-- Embedding of the `rmAllowedPrincipal` update handler of `lib.rs`:
authorize against `ROOT_PRINCIPALS`, then remove the principal from
`ALLOWED_PRINCIPALS` and answer `Ok` unconditionally (the handler ignores
the value returned by `remove`). -/
def rm_allowed_principal (caller principal : String)
    (s : OrchestratorState) :
    ModifyAllowedPrincipalResponse × OrchestratorState :=
  match authorize caller s.rootPrincipals with
  | Except.error AuthorizeError.unauthorized =>
      (ModifyAllowedPrincipalResponse.err
        ModifyAllowedPrincipalError.unauthorized, s)
  | Except.error (AuthorizeError.unexpectedError e) =>
      (ModifyAllowedPrincipalResponse.err
        (ModifyAllowedPrincipalError.unexpectedError e), s)
  | Except.ok _ =>
      (ModifyAllowedPrincipalResponse.ok,
       { s with allowedPrincipals := removePrincipal principal s.allowedPrincipals })

/-!
Upgrade persistence. The `persistence` module named by `lib.rs` is not part
of the source tree; its `store`/`load` are modelled from the spec: each
queue is serialized into a single byte buffer held in its own memory
region, and loading parses the buffer back. The byte-level format here is
a length-prefixed entry list: one length byte, the id's character codes,
then the 64-bit due-time in eight little-endian base-256 digits.
-/

/-- Little-endian base-256 digits of a natural number, `k` digits wide. -/
def encodeNatLE : Nat → Nat → List Nat
  | 0, _ => []
  | k + 1, n => n % 256 :: encodeNatLE k (n / 256)

/-- Read back a little-endian base-256 digit list. -/
def decodeNatLE : List Nat → Nat
  | [] => 0
  | b :: bs => b + 256 * decodeNatLE bs

/-- Modelled from the spec: serialization of one queue entry — id length,
id character codes, then the due-time as eight base-256 digits. -/
def encodeEntry (e : String × Nat) : List Nat :=
  e.1.data.length :: (e.1.data.map Char.toNat ++ encodeNatLE 8 e.2)

/-- Modelled from the spec: `persistence::store` — the whole queue as one
serialized buffer, entries in queue order. -/
def encodeQueue : PQueue → List Nat
  | [] => []
  | e :: es => encodeEntry e ++ encodeQueue es

/-- Entry-list parser for `persistence::load`, fuelled to keep the
recursion structural; `decodeQueue` supplies sufficient fuel. -/
def decodeEntries : Nat → List Nat → Option PQueue
  | _, [] => some []
  | 0, _ :: _ => none
  | fuel + 1, len :: rest =>
    if len + 8 ≤ rest.length then
      match decodeEntries fuel ((rest.drop len).drop 8) with
      | none => none
      | some es =>
          some ((String.mk ((rest.take len).map Char.ofNat),
                 decodeNatLE ((rest.drop len).take 8)) :: es)
    else
      none

/-- Modelled from the spec: `persistence::load` — parse a serialized
buffer back into a queue; `none` models the trapping failure branch. -/
def decodeQueue (buf : List Nat) : Option PQueue :=
  decodeEntries buf.length buf

/-- The three memory regions reserved for the queue snapshots
(`MEMORY_ID_TASKS`, `MEMORY_ID_EXPIRATIONS`, `MEMORY_ID_RETRIES`). -/
structure StableMemory where
  tasksRegion : List Nat
  expirationsRegion : List Nat
  retriesRegion : List Nat
deriving DecidableEq, Repr

/-- Embedding of `pre_upgrade_fn` of `lib.rs`: store each of Tasks,
Expirations and Retries into its memory region. -/
def pre_upgrade_fn (s : OrchestratorState) : StableMemory :=
  { tasksRegion := encodeQueue s.tasks
    expirationsRegion := encodeQueue s.expirations
    retriesRegion := encodeQueue s.retries }

/-- Embedding of `post_upgrade_fn` of `lib.rs`: load each of Tasks,
Expirations and Retries back from its memory region; any load failure
traps, modelled by `none`. -/
def post_upgrade_fn (m : StableMemory) : Option (PQueue × PQueue × PQueue) :=
  match decodeQueue m.tasksRegion with
  | none => none
  | some tasks =>
    match decodeQueue m.expirationsRegion with
    | none => none
    | some expirations =>
      match decodeQueue m.retriesRegion with
      | none => none
      | some retries => some (tasks, expirations, retries)

end Orch

namespace Samples

/-- Collaborator oracles for which every external call succeeds. -/
def okCollab : Issuer.Collaborators where
  acmeOrder := fun _ => Except.ok "token"
  dnsCreate := fun _ _ _ => Except.ok ()
  resolverLookup := fun _ _ => Except.ok ["token"]
  acmeReady := fun _ => Except.ok ()
  acmeFinalize := fun _ => Except.ok ("cert", "key")
  dnsDelete := fun _ _ => Except.ok ()
  certUpload := fun _ _ => Except.ok ()

/-- Collaborators whose resolver reports that no records were found. -/
def noRecordsCollab : Issuer.Collaborators :=
  { okCollab with
    resolverLookup := fun _ _ =>
      Except.error Issuer.ResolveErrorKind.noRecordsFound }

/-- Collaborators whose resolver fails with a non-`NoRecordsFound` kind. -/
def timeoutCollab : Issuer.Collaborators :=
  { okCollab with
    resolverLookup := fun _ _ =>
      Except.error (Issuer.ResolveErrorKind.other "timeout") }

/-- A worker processor configured with a concrete delegation domain. -/
def proc : Issuer.Processor := { delegation_domain := "delegation" }

/-- A concrete orchestrator state with two due tasks, one expiration and
one parked retry. -/
def state0 : Orch.OrchestratorState where
  rootPrincipals := ["root"]
  allowedPrincipals := ["worker"]
  tasks := [("A", 5), ("B", 7)]
  expirations := [("A", 100)]
  retries := [("C", 9)]

end Samples

/-- C2: the worker's conversion `Action::from(State)` is a total pure
function (it is a Lean function on the whole `State` type) mapping
`Failed(_)` and `PendingOrder` to `Order`, `PendingChallengeResponse` to
`Ready`, `PendingAcmeApproval` to `Certificate`, and `Available` to
`Order`. -/
theorem action_fromState_spec :
    (∀ r : String,
      Issuer.Action.fromState (Issuer.State.failed r) = Issuer.Action.order) ∧
    Issuer.Action.fromState Issuer.State.pendingOrder = Issuer.Action.order ∧
    Issuer.Action.fromState Issuer.State.pendingChallengeResponse
      = Issuer.Action.ready ∧
    Issuer.Action.fromState Issuer.State.pendingAcmeApproval
      = Issuer.Action.certificate ∧
    Issuer.Action.fromState Issuer.State.available = Issuer.Action.order :=
  ⟨fun _ => rfl, rfl, rfl, rfl, rfl⟩

/-- C7: the re-check delay derived from a `ProcessError` via
`From<&ProcessError> for Duration` is exactly 60 seconds for both
`AwaitingDnsPropogation` and `AwaitingAcmeOrderReady`. -/
theorem process_error_retry_delay_spec :
    Issuer.durationFromProcessError Issuer.ProcessError.awaitingDnsPropogation
      = 60 ∧
    Issuer.durationFromProcessError Issuer.ProcessError.awaitingAcmeOrderReady
      = 60 :=
  ⟨rfl, rfl⟩

/-- C10: each worker RPC wrapper (`CanisterQueuer::queue`,
`CanisterDispenser::dispense`, `CanisterDispenser::peek`) converts an
`Unauthorized` orchestrator response into `UnexpectedError("unauthorized")`
— the same result it produces for an `UnexpectedError("unauthorized")`
response — so no distinct error kind ever surfaces an authorization
failure. -/
theorem rpc_wrappers_fold_unauthorized :
    Issuer.CanisterQueuer.queueResult
        (Issuer.IfcQueueTaskResponse.err
          Issuer.IfcQueueTaskError.unauthorized)
      = Except.error (Issuer.QueueError.unexpectedError "unauthorized") ∧
    Issuer.CanisterDispenser.dispenseResult
        (Issuer.IfcDispenseTaskResponse.err
          Issuer.IfcDispenseTaskError.unauthorized)
      = Except.error (Issuer.DispenseError.unexpectedError "unauthorized") ∧
    Issuer.CanisterDispenser.peekResult
        (Issuer.IfcDispenseTaskResponse.err
          Issuer.IfcDispenseTaskError.unauthorized)
      = Except.error (Issuer.DispenseError.unexpectedError "unauthorized") ∧
    Issuer.CanisterQueuer.queueResult
        (Issuer.IfcQueueTaskResponse.err
          Issuer.IfcQueueTaskError.unauthorized)
      = Issuer.CanisterQueuer.queueResult
          (Issuer.IfcQueueTaskResponse.err
            (Issuer.IfcQueueTaskError.unexpectedError "unauthorized")) ∧
    Issuer.CanisterDispenser.dispenseResult
        (Issuer.IfcDispenseTaskResponse.err
          Issuer.IfcDispenseTaskError.unauthorized)
      = Issuer.CanisterDispenser.dispenseResult
          (Issuer.IfcDispenseTaskResponse.err
            (Issuer.IfcDispenseTaskError.unexpectedError "unauthorized")) ∧
    Issuer.CanisterDispenser.peekResult
        (Issuer.IfcDispenseTaskResponse.err
          Issuer.IfcDispenseTaskError.unauthorized)
      = Issuer.CanisterDispenser.peekResult
          (Issuer.IfcDispenseTaskResponse.err
            (Issuer.IfcDispenseTaskError.unexpectedError "unauthorized")) :=
  ⟨rfl, rfl, rfl, rfl, rfl, rfl⟩

/-- C3: in the `Certificate` arm, `process` calls `acme.finalize(name)`,
then `dns.delete(delegation_domain, "_acme-challenge." + name)`, then
`certificate.upload(id, Pair(key, cert))` with the private key first and
the certificate chain second, and returns `Ok(())` when all three
succeed; the event trace records exactly those three calls in order. -/
theorem process_certificate_phase_spec (p : Issuer.Processor)
    (c : Issuer.Collaborators) (id : Issuer.Id) (task : Issuer.Task)
    (cert key : String)
    (hact : task.action = Issuer.Action.certificate)
    (hfin : c.acmeFinalize task.name = Except.ok (cert, key))
    (hdel : c.dnsDelete p.delegation_domain ("_acme-challenge." ++ task.name)
      = Except.ok ())
    (hup : c.certUpload id (key, cert) = Except.ok ()) :
    p.process c id task =
      (Except.ok (),
       [Issuer.Event.acmeFinalize task.name,
        Issuer.Event.dnsDelete p.delegation_domain
          ("_acme-challenge." ++ task.name),
        Issuer.Event.certUpload id (key, cert)]) := by
  unfold Issuer.Processor.process
  rw [hact]
  simp only [hfin, hdel, hup]

/-- C3 witness: the certificate phase evaluated on concrete collaborators
for which every call succeeds. -/
theorem process_certificate_phase_spec_witness :
    Samples.proc.process Samples.okCollab "id"
        { name := "name", action := Issuer.Action.certificate } =
      (Except.ok (),
       [Issuer.Event.acmeFinalize "name",
        Issuer.Event.dnsDelete "delegation" "_acme-challenge.name",
        Issuer.Event.certUpload "id" ("key", "cert")]) :=
  process_certificate_phase_spec Samples.proc Samples.okCollab "id"
    { name := "name", action := Issuer.Action.certificate }
    "cert" "key" rfl rfl rfl rfl

/-- C5: in the `Order` arm, `process` calls `acme.order(name)` for a
challenge key, then `dns.create(delegation_domain,
"_acme-challenge." + name, TXT(challenge_key))`, and when both succeed it
still reports `AwaitingDnsPropogation`; moreover the `Order` arm never
returns success for any collaborator behaviour. -/
theorem process_order_phase_spec (p : Issuer.Processor)
    (c : Issuer.Collaborators) (id : Issuer.Id) (task : Issuer.Task)
    (key : String)
    (hact : task.action = Issuer.Action.order)
    (hord : c.acmeOrder task.name = Except.ok key)
    (hcre : c.dnsCreate p.delegation_domain ("_acme-challenge." ++ task.name)
      (Issuer.DnsRecord.txt key) = Except.ok ()) :
    p.process c id task =
      (Except.error Issuer.ProcessError.awaitingDnsPropogation,
       [Issuer.Event.acmeOrder task.name,
        Issuer.Event.dnsCreate p.delegation_domain
          ("_acme-challenge." ++ task.name) (Issuer.DnsRecord.txt key)]) ∧
    (∀ u : Unit, (p.process c id task).1 ≠ Except.ok u) := by
  constructor
  · unfold Issuer.Processor.process
    rw [hact]
    simp only [hord, hcre]
  · intro u
    unfold Issuer.Processor.process
    rw [hact]
    cases hodr : c.acmeOrder task.name with
    | error e => simp
    | ok k =>
      cases hcr : c.dnsCreate p.delegation_domain
          ("_acme-challenge." ++ task.name) (Issuer.DnsRecord.txt k) with
      | error e => simp [hcr]
      | ok v => simp [hcr]

/-- C5 witness: the order phase evaluated on concrete collaborators for
which both calls succeed. -/
theorem process_order_phase_spec_witness :
    Samples.proc.process Samples.okCollab "id"
        { name := "name", action := Issuer.Action.order } =
      (Except.error Issuer.ProcessError.awaitingDnsPropogation,
       [Issuer.Event.acmeOrder "name",
        Issuer.Event.dnsCreate "delegation" "_acme-challenge.name"
          (Issuer.DnsRecord.txt "token")]) ∧
    (∀ u : Unit,
      (Samples.proc.process Samples.okCollab "id"
        { name := "name", action := Issuer.Action.order }).1
        ≠ Except.ok u) :=
  process_order_phase_spec Samples.proc Samples.okCollab "id"
    { name := "name", action := Issuer.Action.order }
    "token" rfl rfl rfl

/-- C4: in the `Ready` arm, `process` resolves the TXT record for
`"_acme-challenge." + name + "." + delegation_domain`; a `NoRecordsFound`
resolver error yields `AwaitingDnsPropogation`, any other resolver error
yields `UnexpectedError`, and only on a successful resolution is
`acme.ready(name)` called, after which (when it succeeds) the result is
`AwaitingAcmeOrderReady`; the traces show `acme.ready` is never called on
the error paths. -/
theorem process_ready_phase_spec (p : Issuer.Processor)
    (c : Issuer.Collaborators) (id : Issuer.Id) (task : Issuer.Task)
    (hact : task.action = Issuer.Action.ready) :
    (c.resolverLookup
        ("_acme-challenge." ++ task.name ++ "." ++ p.delegation_domain)
        Issuer.RecordType.txt
        = Except.error Issuer.ResolveErrorKind.noRecordsFound →
      p.process c id task =
        (Except.error Issuer.ProcessError.awaitingDnsPropogation,
         [Issuer.Event.resolverLookup
            ("_acme-challenge." ++ task.name ++ "." ++ p.delegation_domain)
            Issuer.RecordType.txt])) ∧
    (∀ msg : String,
      c.resolverLookup
        ("_acme-challenge." ++ task.name ++ "." ++ p.delegation_domain)
        Issuer.RecordType.txt
        = Except.error (Issuer.ResolveErrorKind.other msg) →
      p.process c id task =
        (Except.error (Issuer.ProcessError.unexpectedError
          ("failed to resolve TXT record: " ++ msg)),
         [Issuer.Event.resolverLookup
            ("_acme-challenge." ++ task.name ++ "." ++ p.delegation_domain)
            Issuer.RecordType.txt])) ∧
    (∀ l : Issuer.Lookup,
      c.resolverLookup
        ("_acme-challenge." ++ task.name ++ "." ++ p.delegation_domain)
        Issuer.RecordType.txt = Except.ok l →
      c.acmeReady task.name = Except.ok () →
      p.process c id task =
        (Except.error Issuer.ProcessError.awaitingAcmeOrderReady,
         [Issuer.Event.resolverLookup
            ("_acme-challenge." ++ task.name ++ "." ++ p.delegation_domain)
            Issuer.RecordType.txt,
          Issuer.Event.acmeReady task.name])) := by
  refine ⟨fun hres => ?_, fun msg hres => ?_, fun l hres hready => ?_⟩
  · unfold Issuer.Processor.process
    rw [hact]
    simp [hres]
  · unfold Issuer.Processor.process
    rw [hact]
    simp [hres]
  · unfold Issuer.Processor.process
    rw [hact]
    simp [hres, hready]

/-- C4 witness: the ready phase evaluated at the three concrete resolver
behaviours — no records found, a timeout-style failure, and success. -/
theorem process_ready_phase_spec_witness :
    Samples.proc.process Samples.noRecordsCollab "id"
        { name := "name", action := Issuer.Action.ready } =
      (Except.error Issuer.ProcessError.awaitingDnsPropogation,
       [Issuer.Event.resolverLookup "_acme-challenge.name.delegation"
          Issuer.RecordType.txt]) ∧
    Samples.proc.process Samples.timeoutCollab "id"
        { name := "name", action := Issuer.Action.ready } =
      (Except.error (Issuer.ProcessError.unexpectedError
        "failed to resolve TXT record: timeout"),
       [Issuer.Event.resolverLookup "_acme-challenge.name.delegation"
          Issuer.RecordType.txt]) ∧
    Samples.proc.process Samples.okCollab "id"
        { name := "name", action := Issuer.Action.ready } =
      (Except.error Issuer.ProcessError.awaitingAcmeOrderReady,
       [Issuer.Event.resolverLookup "_acme-challenge.name.delegation"
          Issuer.RecordType.txt,
        Issuer.Event.acmeReady "name"]) :=
  ⟨(process_ready_phase_spec Samples.proc Samples.noRecordsCollab "id"
      { name := "name", action := Issuer.Action.ready } rfl).1 rfl,
   (process_ready_phase_spec Samples.proc Samples.timeoutCollab "id"
      { name := "name", action := Issuer.Action.ready } rfl).2.1 "timeout" rfl,
   (process_ready_phase_spec Samples.proc Samples.okCollab "id"
      { name := "name", action := Issuer.Action.ready } rfl).2.2 ["token"]
      rfl rfl⟩

/-- C6: `listAllowedPrincipals`, `addAllowedPrincipal` and
`rmAllowedPrincipal` authorize against `ROOT_PRINCIPALS`: any caller
outside the root set — even one in `ALLOWED_PRINCIPALS` — receives
`Unauthorized`, and the `AllowedPrincipals` set (indeed the whole state)
is left unchanged. -/
theorem acl_ops_authorize_against_root (caller principal : String)
    (s : Orch.OrchestratorState) (h : caller ∉ s.rootPrincipals) :
    Orch.list_allowed_principals caller s =
      Orch.ListAllowedPrincipalsResponse.err
        Orch.ListAllowedPrincipalsError.unauthorized ∧
    Orch.add_allowed_principal caller principal s =
      (Orch.ModifyAllowedPrincipalResponse.err
        Orch.ModifyAllowedPrincipalError.unauthorized, s) ∧
    Orch.rm_allowed_principal caller principal s =
      (Orch.ModifyAllowedPrincipalResponse.err
        Orch.ModifyAllowedPrincipalError.unauthorized, s) := by
  refine ⟨?_, ?_, ?_⟩ <;>
    simp [Orch.list_allowed_principals, Orch.add_allowed_principal,
      Orch.rm_allowed_principal, Orch.authorize, h]

/-- C6 witness: a caller who is in the allowed set but not in the root set
is refused by all three ACL operations and the state is untouched. -/
theorem acl_ops_authorize_against_root_witness :
    "worker" ∉ Samples.state0.rootPrincipals ∧
    "worker" ∈ Samples.state0.allowedPrincipals ∧
    Orch.list_allowed_principals "worker" Samples.state0 =
      Orch.ListAllowedPrincipalsResponse.err
        Orch.ListAllowedPrincipalsError.unauthorized ∧
    Orch.add_allowed_principal "worker" "mallory" Samples.state0 =
      (Orch.ModifyAllowedPrincipalResponse.err
        Orch.ModifyAllowedPrincipalError.unauthorized, Samples.state0) ∧
    Orch.rm_allowed_principal "worker" "mallory" Samples.state0 =
      (Orch.ModifyAllowedPrincipalResponse.err
        Orch.ModifyAllowedPrincipalError.unauthorized, Samples.state0) := by
  refine ⟨by decide, by decide, ?_⟩
  have h := acl_ops_authorize_against_root "worker" "mallory" Samples.state0
    (by decide)
  exact ⟨h.1, h.2.1, h.2.2⟩

/-- C9: for a root caller, `rmAllowedPrincipal(p)` answers `Ok` whether or
not `p` is currently allowed (there is no `NotFound` outcome), afterwards
`p` is absent from `AllowedPrincipals`, and a second identical call
returns the same response and the same state as the first. -/
theorem rm_allowed_principal_ok_absent_idempotent (caller principal : String)
    (s : Orch.OrchestratorState) (h : caller ∈ s.rootPrincipals) :
    (Orch.rm_allowed_principal caller principal s).1 =
      Orch.ModifyAllowedPrincipalResponse.ok ∧
    principal ∉
      (Orch.rm_allowed_principal caller principal s).2.allowedPrincipals ∧
    Orch.rm_allowed_principal caller principal
        (Orch.rm_allowed_principal caller principal s).2 =
      Orch.rm_allowed_principal caller principal s := by
  refine ⟨?_, ?_, ?_⟩
  · simp [Orch.rm_allowed_principal, Orch.authorize, h]
  · simp [Orch.rm_allowed_principal, Orch.authorize, h, Orch.removePrincipal,
      List.mem_filter]
  · simp [Orch.rm_allowed_principal, Orch.authorize, h, Orch.removePrincipal,
      List.filter_filter]

/-- C9 witness: removing a principal that is not in the allowed set, from
a root caller, still answers `Ok`, leaves it absent, and repeating the
call changes nothing. -/
theorem rm_allowed_principal_ok_absent_idempotent_witness :
    "root" ∈ Samples.state0.rootPrincipals ∧
    "ghost" ∉ Samples.state0.allowedPrincipals ∧
    ((Orch.rm_allowed_principal "root" "ghost" Samples.state0).1 =
      Orch.ModifyAllowedPrincipalResponse.ok ∧
    "ghost" ∉
      (Orch.rm_allowed_principal "root" "ghost"
        Samples.state0).2.allowedPrincipals ∧
    Orch.rm_allowed_principal "root" "ghost"
        (Orch.rm_allowed_principal "root" "ghost" Samples.state0).2 =
      Orch.rm_allowed_principal "root" "ghost" Samples.state0) :=
  ⟨by decide, by decide,
   rm_allowed_principal_ok_absent_idempotent "root" "ghost" Samples.state0
     (by decide)⟩

/-- An entry ordered before another by `entryLE` has the smaller or equal
due-time. -/
theorem entryLE_true_le {a b : String × Nat} (h : Orch.entryLE a b = true) :
    a.2 ≤ b.2 := by
  unfold Orch.entryLE at h
  simp only [Bool.or_eq_true, Bool.and_eq_true, decide_eq_true_eq] at h
  rcases h with h | ⟨h, _⟩
  · exact Nat.le_of_lt h
  · exact Nat.le_of_eq h

/-- An entry not ordered before another by `entryLE` has the larger or
equal due-time. -/
theorem entryLE_false_le {a b : String × Nat} (h : Orch.entryLE a b = false) :
    b.2 ≤ a.2 := by
  by_cases hlt : a.2 < b.2
  · exfalso
    unfold Orch.entryLE at h
    rw [decide_eq_true hlt] at h
    simp at h
  · exact Nat.le_of_not_lt hlt

/-- The binary minimum of two entries is one of them. -/
theorem minEntry_choice (a b : String × Nat) :
    Orch.minEntry a b = a ∨ Orch.minEntry a b = b := by
  unfold Orch.minEntry
  split
  · exact Or.inl rfl
  · exact Or.inr rfl

/-- The binary minimum of two entries has due-time at most either
argument's. -/
theorem minEntry_snd_le (a b : String × Nat) :
    (Orch.minEntry a b).2 ≤ a.2 ∧ (Orch.minEntry a b).2 ≤ b.2 := by
  unfold Orch.minEntry
  cases hle : Orch.entryLE a b with
  | true =>
    have hred : (if (true : Bool) = true then a else b) = a := rfl
    rw [hred]
    exact ⟨Nat.le_refl _, entryLE_true_le hle⟩
  | false =>
    have hred : (if (false : Bool) = true then a else b) = b := rfl
    rw [hred]
    exact ⟨entryLE_false_le hle, Nat.le_refl _⟩

/-- Folding `minEntry` over a list yields the accumulator or a list
element. -/
theorem foldl_minEntry_mem (l : List (String × Nat)) :
    ∀ a : String × Nat,
      l.foldl Orch.minEntry a = a ∨ l.foldl Orch.minEntry a ∈ l := by
  induction l with
  | nil => intro a; exact Or.inl rfl
  | cons b t ih =>
    intro a
    rcases ih (Orch.minEntry a b) with h | h
    · rcases minEntry_choice a b with h2 | h2
      · exact Or.inl (by rw [List.foldl_cons, h, h2])
      · refine Or.inr ?_
        rw [List.foldl_cons, h, h2]
        exact List.mem_cons_self _ _
    · refine Or.inr ?_
      rw [List.foldl_cons]
      exact List.mem_cons_of_mem _ h

/-- Folding `minEntry` produces a due-time no larger than the
accumulator's or any list element's. -/
theorem foldl_minEntry_le (l : List (String × Nat)) :
    ∀ a : String × Nat,
      (l.foldl Orch.minEntry a).2 ≤ a.2 ∧
      ∀ e ∈ l, (l.foldl Orch.minEntry a).2 ≤ e.2 := by
  induction l with
  | nil =>
    intro a
    exact ⟨Nat.le_refl _, fun e he => absurd he (List.not_mem_nil e)⟩
  | cons b t ih =>
    intro a
    have hm := minEntry_snd_le a b
    have ht := ih (Orch.minEntry a b)
    constructor
    · rw [List.foldl_cons]
      exact Nat.le_trans ht.1 hm.1
    · intro e he
      rw [List.foldl_cons]
      rcases List.mem_cons.mp he with rfl | he2
      · exact Nat.le_trans ht.1 hm.2
      · exact ht.2 e he2

/-- An entry returned by `peekMin` belongs to the queue. -/
theorem peekMin_mem {q : Orch.PQueue} {e : String × Nat}
    (h : Orch.peekMin q = some e) : e ∈ q := by
  cases q with
  | nil => simp [Orch.peekMin] at h
  | cons a t =>
    simp only [Orch.peekMin, Option.some_inj] at h
    subst h
    rcases foldl_minEntry_mem t a with h2 | h2
    · rw [h2]; exact List.mem_cons_self _ _
    · exact List.mem_cons_of_mem _ h2

/-- An entry returned by `peekMin` has the minimal due-time in the
queue. -/
theorem peekMin_le {q : Orch.PQueue} {e : String × Nat}
    (h : Orch.peekMin q = some e) : ∀ x ∈ q, e.2 ≤ x.2 := by
  cases q with
  | nil => simp [Orch.peekMin] at h
  | cons a t =>
    simp only [Orch.peekMin, Option.some_inj] at h
    subst h
    intro x hx
    rcases List.mem_cons.mp hx with rfl | hx2
    · exact (foldl_minEntry_le t x).1
    · exact (foldl_minEntry_le t a).2 x hx2

/-- `peekMin` answers `none` only on the empty queue. -/
theorem peekMin_eq_none {q : Orch.PQueue} (h : Orch.peekMin q = none) :
    q = [] := by
  cases q with
  | nil => rfl
  | cons a t => simp [Orch.peekMin] at h

/-- C1: for an authorized caller, when the Tasks queue holds an entry due
at or before `now`, `dispenseTask` returns the id of a minimum-due-time
entry, removes it from Tasks, and inserts the same id into Retries at
`now + IN_PROGRESS_TTL`, all in the one state transition the handler
performs; with no due entry it returns `NoTasksAvailable` and leaves the
state unchanged. -/
theorem dispense_task_spec (caller : String) (now : Nat)
    (s : Orch.OrchestratorState) (hauth : caller ∈ s.allowedPrincipals) :
    ((∃ e ∈ s.tasks, e.2 ≤ now) →
      ∃ id t, (id, t) ∈ s.tasks ∧ t ≤ now ∧
        (∀ e ∈ s.tasks, t ≤ e.2) ∧
        Orch.dispense_task caller now s =
          (Issuer.IfcDispenseTaskResponse.ok id,
           { s with
              tasks := Orch.removeKey id s.tasks,
              retries := Orch.pushOrUpdate id
                (now + Orch.IN_PROGRESS_TTL_NANOS) s.retries })) ∧
    ((∀ e ∈ s.tasks, ¬ e.2 ≤ now) →
      Orch.dispense_task caller now s =
        (Issuer.IfcDispenseTaskResponse.err
          Issuer.IfcDispenseTaskError.noTasksAvailable, s)) := by
  constructor
  · rintro ⟨e0, he0, hdue⟩
    cases hq : Orch.peekMin s.tasks with
    | none =>
      rw [peekMin_eq_none hq] at he0
      exact absurd he0 (List.not_mem_nil e0)
    | some m =>
      obtain ⟨id, t⟩ := m
      have hmem := peekMin_mem hq
      have hmin := peekMin_le hq
      have ht_now : t ≤ now := Nat.le_trans (hmin e0 he0) hdue
      refine ⟨id, t, hmem, ht_now, hmin, ?_⟩
      unfold Orch.dispense_task Orch.WithAuthorize.dispense Orch.authorize
        Orch.Dispenser.dispense
      rw [hq]
      simp [hauth, ht_now]
  · intro hnone
    cases hq : Orch.peekMin s.tasks with
    | none =>
      unfold Orch.dispense_task Orch.WithAuthorize.dispense Orch.authorize
        Orch.Dispenser.dispense
      rw [hq]
      simp [hauth]
    | some m =>
      obtain ⟨id, t⟩ := m
      have hmem := peekMin_mem hq
      have hlate : ¬ t ≤ now := hnone (id, t) hmem
      unfold Orch.dispense_task Orch.WithAuthorize.dispense Orch.authorize
        Orch.Dispenser.dispense
      rw [hq]
      simp [hauth, hlate]

/-- C1 witness: dispensing from a concrete state with two due tasks
returns the earliest one and parks its lease in Retries. -/
theorem dispense_task_spec_witness :
    "worker" ∈ Samples.state0.allowedPrincipals ∧
    (∃ id t, (id, t) ∈ Samples.state0.tasks ∧ t ≤ 10 ∧
      (∀ e ∈ Samples.state0.tasks, t ≤ e.2) ∧
      Orch.dispense_task "worker" 10 Samples.state0 =
        (Issuer.IfcDispenseTaskResponse.ok id,
         { Samples.state0 with
            tasks := Orch.removeKey id Samples.state0.tasks,
            retries := Orch.pushOrUpdate id
              (10 + Orch.IN_PROGRESS_TTL_NANOS) Samples.state0.retries })) :=
  ⟨by decide,
   (dispense_task_spec "worker" 10 Samples.state0 (by decide)).1
     ⟨("A", 5), by decide, by decide⟩⟩

/-- `encodeNatLE` always produces exactly `k` digits. -/
theorem length_encodeNatLE : ∀ k n : Nat, (Orch.encodeNatLE k n).length = k := by
  intro k
  induction k with
  | zero => intro n; rfl
  | succ k ih => intro n; simp [Orch.encodeNatLE, ih]

/-- Decoding the `k`-digit little-endian encoding recovers the value
modulo `256 ^ k`. -/
theorem decodeNatLE_encodeNatLE :
    ∀ k n : Nat, Orch.decodeNatLE (Orch.encodeNatLE k n) = n % 256 ^ k := by
  intro k
  induction k with
  | zero => intro n; simp [Orch.encodeNatLE, Orch.decodeNatLE, Nat.mod_one]
  | succ k ih =>
    intro n
    show Orch.decodeNatLE (n % 256 :: Orch.encodeNatLE k (n / 256))
      = n % 256 ^ (k + 1)
    rw [Orch.decodeNatLE, ih, pow_succ']
    exact Nat.mod_mul.symm

/-- A queue never has more entries than its encoding has bytes. -/
theorem length_le_length_encodeQueue :
    ∀ q : Orch.PQueue, q.length ≤ (Orch.encodeQueue q).length := by
  intro q
  induction q with
  | nil => exact Nat.le_refl 0
  | cons e es ih =>
    have h1 : 1 ≤ (Orch.encodeEntry e).length := by
      simp [Orch.encodeEntry]
    show (e :: es).length ≤ (Orch.encodeEntry e ++ Orch.encodeQueue es).length
    rw [List.length_cons, List.length_append]
    omega

/-- Character codes decode back to the characters they encode. -/
theorem map_ofNat_toNat :
    ∀ l : List Char, (l.map Char.toNat).map Char.ofNat = l := by
  intro l
  induction l with
  | nil => rfl
  | cons c t iht => simp [List.map_cons, Char.ofNat_toNat, iht]

/-- Parsing the encoding of a queue with enough fuel recovers the queue,
provided every due-time fits in a `u64` word (8 base-256 digits). -/
theorem decodeEntries_encodeQueue :
    ∀ (q : Orch.PQueue) (fuel : Nat), q.length ≤ fuel →
      (∀ e ∈ q, e.2 < 256 ^ 8) →
      Orch.decodeEntries fuel (Orch.encodeQueue q) = some q := by
  intro q
  induction q with
  | nil =>
    intro fuel _ _
    cases fuel <;> rfl
  | cons e es ih =>
    intro fuel hlen hbound
    obtain ⟨name, prio⟩ := e
    cases fuel with
    | zero =>
      rw [List.length_cons] at hlen
      omega
    | succ f =>
      have hmapLen : (name.data.map Char.toNat).length = name.data.length :=
        List.length_map _ _
      have henc8 : (Orch.encodeNatLE 8 prio).length = 8 :=
        length_encodeNatLE 8 prio
      show Orch.decodeEntries (f + 1)
          (name.data.length ::
            (name.data.map Char.toNat ++ Orch.encodeNatLE 8 prio ++
              Orch.encodeQueue es))
        = some ((name, prio) :: es)
      rw [List.append_assoc]
      have hcond : name.data.length + 8 ≤
          (name.data.map Char.toNat ++
            (Orch.encodeNatLE 8 prio ++ Orch.encodeQueue es)).length := by
        rw [List.length_append, List.length_append, hmapLen, henc8]
        omega
      have htake := @List.take_left' Nat _
        (Orch.encodeNatLE 8 prio ++ Orch.encodeQueue es) _ hmapLen
      have hdrop := @List.drop_left' Nat _
        (Orch.encodeNatLE 8 prio ++ Orch.encodeQueue es) _ hmapLen
      have hlen2 : es.length ≤ f := by
        rw [List.length_cons] at hlen
        omega
      have hrec := ih f hlen2
        (fun x hx => hbound x (List.mem_cons_of_mem _ hx))
      rw [Orch.decodeEntries, if_pos hcond, htake, hdrop,
        @List.take_left' Nat _ (Orch.encodeQueue es) _ henc8,
        @List.drop_left' Nat _ (Orch.encodeQueue es) _ henc8, hrec]
      rw [map_ofNat_toNat, decodeNatLE_encodeNatLE,
        Nat.mod_eq_of_lt (hbound (name, prio) (List.mem_cons_self _ _))]

/-- C8: for every orchestrator state whose queue due-times fit in `u64`,
running the pre-upgrade snapshot and then the post-upgrade restore gives
back exactly the contents and the ordering of Tasks, Expirations and
Retries. -/
theorem upgrade_roundtrip_spec (s : Orch.OrchestratorState)
    (htasks : ∀ e ∈ s.tasks, e.2 < 256 ^ 8)
    (hexp : ∀ e ∈ s.expirations, e.2 < 256 ^ 8)
    (hret : ∀ e ∈ s.retries, e.2 < 256 ^ 8) :
    Orch.post_upgrade_fn (Orch.pre_upgrade_fn s) =
      some (s.tasks, s.expirations, s.retries) := by
  unfold Orch.post_upgrade_fn Orch.pre_upgrade_fn Orch.decodeQueue
  rw [decodeEntries_encodeQueue s.tasks _
      (length_le_length_encodeQueue _) htasks,
    decodeEntries_encodeQueue s.expirations _
      (length_le_length_encodeQueue _) hexp,
    decodeEntries_encodeQueue s.retries _
      (length_le_length_encodeQueue _) hret]

/-- C8 witness: the round trip evaluated on a concrete state with three
nonempty queues. -/
theorem upgrade_roundtrip_spec_witness :
    (∀ e ∈ Samples.state0.tasks, e.2 < 256 ^ 8) ∧
    (∀ e ∈ Samples.state0.expirations, e.2 < 256 ^ 8) ∧
    (∀ e ∈ Samples.state0.retries, e.2 < 256 ^ 8) ∧
    Orch.post_upgrade_fn (Orch.pre_upgrade_fn Samples.state0) =
      some (Samples.state0.tasks, Samples.state0.expirations,
            Samples.state0.retries) :=
  ⟨by decide, by decide, by decide,
   upgrade_roundtrip_spec Samples.state0 (by decide) (by decide) (by decide)⟩
